import Mathlib

/-!
Verification of the orchestration logic in `honeybee_3dm/grid.py`.

The file shallowly embeds the two components of the source file:

* `import_grids` (the grid builder): enumerates objects on a layer,
  rejects meshes, converts boundaries to faces, seeds sensor points and
  merges everything into a single named sensor grid plus summary rows.
* `DataWriter.write_csv` (the table exporter): writes summary rows as a
  comma-delimited file.

External collaborators (the rhino model, layer traversal, `to_face3d`,
`clean_string`, `clean_and_id_string`, `SensorGrid.from_face3d`) are
modelled as abstract function fields of an environment record `Env`,
since the source treats them as library services.  Python exceptions are
modelled by the explicit error type `PyError`; the spec-level error names
correspond to concrete Python exceptions as follows:

* `RejectedGeometryKind` = `ValueError` with message `Mesh is not accepted.`
* `FaceConversionError`  = `AssertionError` with the object-id message
* `InvalidTargetFolder`  = `ValueError` with message
  `Target foldder is not a valid path.` (sic, as in the source).

The filesystem is modelled by an existence oracle `String → Bool`; a
successful write is the pair (path written, list of records written).
-/

namespace HoneybeeGrid

/-- The geometry kind of a rhino object: the source only distinguishes
`rhino3dm.Mesh` instances from everything else. -/
inductive GeoKind where
  | mesh
  | other
  deriving DecidableEq, Repr

/-- The attributes of a rhino object used by the source:
`obj.Attributes.Id` and `obj.Attributes.Name`.  The name may be absent
(`none`, Python `None`) or an arbitrary string (the empty string is falsy
in Python, like `None`). -/
structure ObjAttributes where
  Id : String
  Name : Option String
  deriving DecidableEq, Repr

/-- A rhino model object, as consumed by `import_grids`. -/
structure RhinoObject where
  geoKind : GeoKind
  Attributes : ObjAttributes
  deriving DecidableEq, Repr

/-- A rhino layer: the source only uses `layer.Name`. -/
structure Layer where
  Name : String
  deriving DecidableEq, Repr

/-- A seeded sensor: `item.pos` and `item.dir` of an element of the
sequence returned by `SensorGrid.from_face3d`.  The point type is a
parameter since the source never inspects it. -/
structure Sensor (P : Type) where
  pos : P
  dir : P
  deriving DecidableEq, Repr

/-- The merged sensor grid built by
`SensorGrid.from_position_and_direction(identifier=..., positions=...,
directions=...)`. -/
structure SensorGrid (P : Type) where
  identifier : String
  positions : List P
  directions : List P
  deriving DecidableEq, Repr

/-- The Python exceptions that the source can raise. -/
inductive PyError where
  | valueError (msg : String)
  | assertionError (msg : String)
  | indexError
  deriving DecidableEq, Repr

/-- The external library services used by `import_grids`, over a model
type `M`, a face type `F` and a point type `P` (all opaque to the
source). -/
structure Env (M F P : Type) where
  /-- `objects_on_layer(rhino3dm_file, layer)` from `.layer`. -/
  objects_on_layer : M → Layer → List RhinoObject
  /-- `objects_on_parent_child(rhino3dm_file, layer_name)` from `.layer`. -/
  objects_on_parent_child : M → String → List RhinoObject
  /-- `to_face3d(obj, tolerance)` from `.togeometry`; `none` models the
  `AssertionError` the source catches. -/
  to_face3d : RhinoObject → Rat → Option (List F)
  /-- `clean_and_id_string` from `honeybee.typing` (fresh-identifier
  generation, modelled as an injected capability). -/
  clean_and_id_string : String → String
  /-- `clean_string` from `honeybee.typing` (identifier sanitization). -/
  clean_string : String → String
  /-- `SensorGrid.from_face3d(identifier, faces, a, b, c)` from
  `honeybee_radiance.sensorgrid`, as the sequence of sensors it yields. -/
  from_face3d : String → List F → Rat → Rat → Rat → List (Sensor P)

variable {M F P : Type}

/-- The error message raised for a mesh object:
`raise ValueError('Mesh is not accepted.')`. -/
def meshErrorMsg : String := "Mesh is not accepted."

/-- The constant tail of the conversion-failure message (the source's
adjacent string literals, concatenated). -/
def conversionHint : String :=
  ". Either the object has faces too small for the grid size, or the" ++
  " object is not supported for grids. You should try again with a" ++
  " smaller grid size in the config file."

/-- The `AssertionError` message re-raised on conversion failure. -/
def conversionFailureMsg (id : String) : String :=
  "Please check object with ID: " ++ (id ++ conversionHint)

/-- `name or clean_and_id_string('Grid')`: the stored name when truthy
(present and non-empty), else a generated identifier. -/
def workingName (env : Env M F P) (obj : RhinoObject) : String :=
  match obj.Attributes.Name with
  | none => env.clean_and_id_string "Grid"
  | some s => if s = "" then env.clean_and_id_string "Grid" else s

/-- Python truthiness of the `grid_controls` argument: `None`, `()` and
`[]` are falsy. -/
def gridControlsFalsy : Option (List Rat) → Bool
  | none => true
  | some l => l.isEmpty

/-- `if not grid_controls: grid_controls = (1.0, 1.0, 0.0)`. -/
def effectiveGridControls (grid_controls : Option (List Rat)) : List Rat :=
  if gridControlsFalsy grid_controls then [1, 1, 0]
  else grid_controls.getD []

/-- The object enumeration of `import_grids`: `objects_on_layer` when
`child_layer` is false, `objects_on_parent_child` on `layer.Name` when it
is true. -/
def gridObjects (env : Env M F P) (rhino3dm_file : M) (layer : Layer)
    (child_layer : Bool) : List RhinoObject :=
  if child_layer then env.objects_on_parent_child rhino3dm_file layer.Name
  else env.objects_on_layer rhino3dm_file layer

/-- The body of the `for obj in grid_objs` loop of `import_grids`,
threading the `grid_pos`, `grid_dir` and `data` accumulators.  A mesh
raises `ValueError`; a failed `to_face3d` raises the re-raised
`AssertionError`; list indexing `grid_controls[0]` / `grid_controls[1]`
raises `IndexError` when out of range. -/
def processObjects (env : Env M F P) (tolerance : Rat) (gc : List Rat) :
    List RhinoObject → List P → List P → List (String × Nat) →
    Except PyError (List P × List P × List (String × Nat))
  | [], grid_pos, grid_dir, data => .ok (grid_pos, grid_dir, data)
  | obj :: rest, grid_pos, grid_dir, data =>
    if obj.geoKind = .mesh then
      .error (.valueError meshErrorMsg)
    else
      match env.to_face3d obj tolerance with
      | none => .error (.assertionError (conversionFailureMsg obj.Attributes.Id))
      | some faces =>
        let obj_name := workingName env obj
        match gc.get? 0, gc.get? 1 with
        | some g0, some g1 =>
          let sens := env.from_face3d (env.clean_string obj_name) faces g0 g0 g1
          processObjects env tolerance gc rest
            (grid_pos ++ sens.map Sensor.pos)
            (grid_dir ++ sens.map Sensor.dir)
            (data ++ [(obj_name, sens.length)])
        | _, _ => .error .indexError

/-- `import_grids(rhino3dm_file, layer, tolerance, *, grid_controls=None,
child_layer=False)`: returns `(hb_grids, data)` on success, the raised
exception otherwise. -/
def import_grids (env : Env M F P) (rhino3dm_file : M) (layer : Layer)
    (tolerance : Rat) (grid_controls : Option (List Rat) := none)
    (child_layer : Bool := false) :
    Except PyError (List (SensorGrid P) × List (String × Nat)) :=
  let grid_objs := gridObjects env rhino3dm_file layer child_layer
  let gc := effectiveGridControls grid_controls
  match processObjects env tolerance gc grid_objs [] [] [] with
  | .error e => .error e
  | .ok (grid_pos, grid_dir, data) =>
    .ok ([{ identifier := layer.Name, positions := grid_pos,
            directions := grid_dir }], data)

/-- Specification-side helper: the sensors the source seeds for one
successfully converted object, given the two grid-control values it
indexes.  The identifier passed to the seeding service is the sanitized
working name, and the x-spacing `g0` fills both grid-size slots. -/
def objSensors (env : Env M F P) (tolerance g0 g1 : Rat)
    (obj : RhinoObject) : List (Sensor P) :=
  match env.to_face3d obj tolerance with
  | none => []
  | some faces => env.from_face3d (env.clean_string (workingName env obj)) faces g0 g0 g1

/-- Specification-side helper: the summary row the source records for one
object. -/
def objRow (env : Env M F P) (tolerance g0 g1 : Rat)
    (obj : RhinoObject) : String × Nat :=
  (workingName env obj, (objSensors env tolerance g0 g1 obj).length)

/-- An object that the per-object loop processes without raising:
not a mesh, and its conversion succeeds. -/
def objOk (env : Env M F P) (tolerance : Rat) (obj : RhinoObject) : Prop :=
  obj.geoKind ≠ .mesh ∧ (env.to_face3d obj tolerance).isSome = true

instance (env : Env M F P) (tolerance : Rat) (obj : RhinoObject) :
    Decidable (objOk env tolerance obj) :=
  inferInstanceAs (Decidable (_ ∧ _))

/-! ### The table exporter (`DataWriter`) -/

/-- A field of a summary row; `csv.writer` stringifies each field.  The
source only ever writes strings and integers. -/
inductive Field where
  | str (s : String)
  | int (n : Int)
  deriving DecidableEq, Repr

/-- Python `str()` applied to a field by `csv.writer.writerow`. -/
def fieldToString : Field → String
  | .str s => s
  | .int n => toString n

/-- Python `csv` minimal quoting: a field is quoted when it contains the
delimiter, the quote character, or a line-terminator character. -/
def csvNeedsQuote (s : String) : Bool :=
  s.toList.any (fun c => c == ',' || c == '"' || c == '\n' || c == '\r')

/-- Double every quote character, as `csv.writer` escapes quotes. -/
def csvEscapeChars : List Char → List Char
  | [] => []
  | c :: cs => if c = '"' then '"' :: '"' :: csvEscapeChars cs
               else c :: csvEscapeChars cs

/-- Quote a rendered field the way `csv.writer` does (doubling inner
quotes) when quoting is required. -/
def csvQuoteField (s : String) : String :=
  if csvNeedsQuote s then "\"" ++ String.mk (csvEscapeChars s.toList) ++ "\""
  else s

/-- Comma-joining of the rendered fields of a record. -/
def commaJoin : List String → String
  | [] => ""
  | [x] => x
  | x :: xs => x ++ "," ++ commaJoin xs

/-- One record written by `csv_writer.writerow(data)`: the comma-joined
rendered fields. -/
def csvRecord (row : List Field) : String :=
  commaJoin (row.map (fun f => csvQuoteField (fieldToString f)))

/-- `os.path.join` on a posix system, for the two-argument call the
source makes: the second component wins when absolute; a separator is
inserted unless the first component is empty or already ends in one. -/
def joinPath (a b : String) : String :=
  if b.toList.head? = some '/' then b
  else if a.toList = [] ∨ a.toList.getLast? = some '/' then a ++ b
  else a ++ "/" ++ b

/-- The `DataWriter` constructor state: `name`, `data`,
`target_folder` (default `None`). -/
structure DataWriter where
  name : String
  data : List (List Field)
  target_folder : Option String := none
  deriving DecidableEq, Repr

/-- Python truthiness of `self.target_folder`: `None` and the empty
string are falsy. -/
def targetFolderTruthy : Option String → Bool
  | none => false
  | some s => decide (s ≠ "")

/-- The exporter's error message (typo preserved from the source). -/
def invalidFolderMsg : String := "Target foldder is not a valid path."

/-- `DataWriter.write_csv`, over a filesystem modelled by the existence
oracle `pathExists`.  A successful run is the pair of the path opened
for (truncating) writing and the list of records written to it, in
order; an `error` means no file was opened. -/
def write_csv (pathExists : String → Bool) (w : DataWriter) :
    Except PyError (String × List String) :=
  if targetFolderTruthy w.target_folder then
    let folder := w.target_folder.getD ""
    if pathExists folder then
      .ok (joinPath folder (w.name ++ ".csv"), w.data.map csvRecord)
    else
      .error (.valueError invalidFolderMsg)
  else
    .ok (w.name ++ ".csv", w.data.map csvRecord)

/-! ### Concrete data for witnesses and counterexamples

The abstract types are instantiated with `M := Unit`, `F := Nat`
(faces as opaque tokens) and `P := Nat` (points as opaque tokens). -/

/-- An environment over a fixed object list: conversion fails exactly on
objects whose id is `idBad`, every successful conversion yields one
face, and seeding always yields two sensors.  `clean_string` appends
`_c` (a sanitizer that is not the identity), `clean_and_id_string`
appends `_gen`. -/
def mkEnv (objs : List RhinoObject) : Env Unit Nat Nat where
  objects_on_layer := fun _ _ => objs
  objects_on_parent_child := fun _ _ => objs
  to_face3d := fun obj _ =>
    if obj.Attributes.Id = "idBad" then none else some [7]
  clean_and_id_string := fun s => s ++ "_gen"
  clean_string := fun s => s ++ "_c"
  from_face3d := fun _ _ _ _ _ => [⟨0, 1⟩, ⟨2, 3⟩]

/-- A named, convertible, non-mesh object. -/
def wObjNamed : RhinoObject := ⟨.other, ⟨"idA", some "alpha"⟩⟩

/-- An unnamed, convertible, non-mesh object. -/
def wObjUnnamed : RhinoObject := ⟨.other, ⟨"idB", none⟩⟩

/-- A mesh object. -/
def wObjMesh : RhinoObject := ⟨.mesh, ⟨"idM", some "meshy"⟩⟩

/-- A non-mesh object whose conversion fails. -/
def wObjBad : RhinoObject := ⟨.other, ⟨"idBad", some "beta"⟩⟩

/-- The layer used by the concrete scenarios. -/
def wLayer : Layer := ⟨"grid"⟩

/-- A filesystem on which no path exists. -/
def noPath : String → Bool := fun _ => false

/-- A filesystem on which exactly the directory `out` exists. -/
def outExists : String → Bool := fun s => s == "out"

/-- The two-row summary of the spec's exporter example. -/
def wRows : List (List Field) :=
  [[Field.str "A", Field.int 3], [Field.str "B", Field.int 5]]

/-! ### Loop lemmas -/

/-- Processing a prefix of successfully handled objects extends the
three accumulators with that prefix's sensors and rows, then continues
with the remaining objects. -/
theorem processObjects_append (env : Env M F P) (tolerance : Rat) (gc : List Rat)
    (g0 g1 : Rat) (h0 : gc.get? 0 = some g0) (h1 : gc.get? 1 = some g1) :
    ∀ (pre : List RhinoObject), (∀ o ∈ pre, objOk env tolerance o) →
      ∀ (l : List RhinoObject) (pos dir : List P) (data : List (String × Nat)),
      processObjects env tolerance gc (pre ++ l) pos dir data =
        processObjects env tolerance gc l
          (pos ++ (pre.map (fun o => (objSensors env tolerance g0 g1 o).map Sensor.pos)).flatten)
          (dir ++ (pre.map (fun o => (objSensors env tolerance g0 g1 o).map Sensor.dir)).flatten)
          (data ++ pre.map (objRow env tolerance g0 g1)) := by
  intro pre
  induction pre with
  | nil => intro _ l pos dir data; simp
  | cons obj rest ih =>
    intro hok l pos dir data
    obtain ⟨hmesh, hsome⟩ := hok obj (List.mem_cons_self obj rest)
    obtain ⟨faces, hfaces⟩ := Option.isSome_iff_exists.mp hsome
    rw [List.cons_append]
    simp only [processObjects, if_neg hmesh, hfaces, h0, h1]
    rw [ih (fun o ho => hok o (List.mem_cons_of_mem obj ho))]
    simp [objSensors, objRow, workingName, hfaces, List.append_assoc]

/-- A run over successfully handled objects only returns the
concatenated per-object positions, directions and summary rows. -/
theorem processObjects_ok (env : Env M F P) (tolerance : Rat) (gc : List Rat)
    (g0 g1 : Rat) (h0 : gc.get? 0 = some g0) (h1 : gc.get? 1 = some g1)
    (objs : List RhinoObject) (hok : ∀ o ∈ objs, objOk env tolerance o) :
    processObjects env tolerance gc objs [] [] ([] : List (String × Nat)) =
      .ok ((objs.map (fun o => (objSensors env tolerance g0 g1 o).map Sensor.pos)).flatten,
           (objs.map (fun o => (objSensors env tolerance g0 g1 o).map Sensor.dir)).flatten,
           objs.map (objRow env tolerance g0 g1)) := by
  have h := processObjects_append env tolerance gc g0 g1 h0 h1 objs hok [] [] [] []
  simpa [processObjects] using h

/-- A fully successful `import_grids` run, characterised in terms of the
per-object seeding results. -/
theorem import_grids_ok (env : Env M F P) (file : M) (layer : Layer)
    (tolerance : Rat) (grid_controls : Option (List Rat)) (child_layer : Bool)
    (g0 g1 : Rat)
    (h0 : (effectiveGridControls grid_controls).get? 0 = some g0)
    (h1 : (effectiveGridControls grid_controls).get? 1 = some g1)
    (hok : ∀ o ∈ gridObjects env file layer child_layer, objOk env tolerance o) :
    import_grids env file layer tolerance grid_controls child_layer =
      .ok ([{ identifier := layer.Name,
              positions := ((gridObjects env file layer child_layer).map
                (fun o => (objSensors env tolerance g0 g1 o).map Sensor.pos)).flatten,
              directions := ((gridObjects env file layer child_layer).map
                (fun o => (objSensors env tolerance g0 g1 o).map Sensor.dir)).flatten }],
            (gridObjects env file layer child_layer).map (objRow env tolerance g0 g1)) := by
  simp only [import_grids]
  rw [processObjects_ok env tolerance _ g0 g1 h0 h1 _ hok]

/-! ### Claim theorems -/

/-- C9: when the layer enumeration yields zero matching objects,
`import_grids` does not raise: it returns a single-element grid list
whose grid (named after the layer) has zero points, together with an
empty summary list. -/
theorem import_grids_empty_layer (env : Env M F P) (file : M) (layer : Layer)
    (tolerance : Rat) (grid_controls : Option (List Rat)) (child_layer : Bool)
    (h : gridObjects env file layer child_layer = []) :
    import_grids env file layer tolerance grid_controls child_layer =
      .ok ([{ identifier := layer.Name, positions := [], directions := [] }], []) := by
  simp [import_grids, h, processObjects]

/-- Witness for C9 at a concrete empty layer. -/
theorem import_grids_empty_layer_witness :
    gridObjects (mkEnv []) () wLayer false = [] ∧
    import_grids (mkEnv []) () wLayer 1 none false =
      .ok ([{ identifier := "grid", positions := [], directions := [] }], []) :=
  ⟨rfl, import_grids_empty_layer (mkEnv []) () wLayer 1 none false rfl⟩

/-- C10: any falsy `grid_controls` argument (`None`, `()`, `[]`, …) is
replaced by the default `(1.0, 1.0, 0.0)` before seeding, so a call with
a falsy value returns the same result as a call with the default triple
on the same model, layer, tolerance and `child_layer` flag. -/
theorem import_grids_falsy_controls_default (env : Env M F P) (file : M)
    (layer : Layer) (tolerance : Rat) (grid_controls : Option (List Rat))
    (child_layer : Bool) (h : gridControlsFalsy grid_controls = true) :
    import_grids env file layer tolerance grid_controls child_layer =
      import_grids env file layer tolerance (some [1, 1, 0]) child_layer := by
  have h2 : gridControlsFalsy (some [1, 1, 0]) = false := rfl
  simp [import_grids, effectiveGridControls, h, h2]

/-- Witness for C10 at the falsy value `some []` (the empty tuple). -/
theorem import_grids_falsy_controls_default_witness :
    gridControlsFalsy (some []) = true ∧
    import_grids (mkEnv [wObjNamed]) () wLayer 1 (some []) false =
      import_grids (mkEnv [wObjNamed]) () wLayer 1 (some [1, 1, 0]) false :=
  ⟨rfl, import_grids_falsy_controls_default (mkEnv [wObjNamed]) () wLayer 1
    (some []) false rfl⟩

/-- C2: when the enumeration reaches an object whose geometry is a raw
mesh (all earlier objects processed successfully), `import_grids` raises
`RejectedGeometryKind` — the `ValueError` with message
`Mesh is not accepted.` — and the whole build aborts with no grid and no
partial results (the run returns only the error). -/
theorem import_grids_mesh_aborts (env : Env M F P) (file : M) (layer : Layer)
    (tolerance : Rat) (grid_controls : Option (List Rat)) (child_layer : Bool)
    (g0 g1 : Rat)
    (h0 : (effectiveGridControls grid_controls).get? 0 = some g0)
    (h1 : (effectiveGridControls grid_controls).get? 1 = some g1)
    (pre rest : List RhinoObject) (mobj : RhinoObject)
    (henum : gridObjects env file layer child_layer = pre ++ mobj :: rest)
    (hmesh : mobj.geoKind = .mesh)
    (hpre : ∀ o ∈ pre, objOk env tolerance o) :
    import_grids env file layer tolerance grid_controls child_layer =
      .error (.valueError meshErrorMsg) := by
  simp only [import_grids, henum]
  rw [processObjects_append env tolerance _ g0 g1 h0 h1 pre hpre]
  simp [processObjects, hmesh]

/-- Witness for C2: a mesh object after one good object. -/
theorem import_grids_mesh_aborts_witness :
    wObjMesh.geoKind = .mesh ∧
    gridObjects (mkEnv [wObjNamed, wObjMesh]) () wLayer false =
      [wObjNamed] ++ wObjMesh :: [] ∧
    (∀ o ∈ [wObjNamed], objOk (mkEnv [wObjNamed, wObjMesh]) 1 o) ∧
    import_grids (mkEnv [wObjNamed, wObjMesh]) () wLayer 1 none false =
      .error (.valueError meshErrorMsg) :=
  ⟨rfl, rfl, by decide,
   import_grids_mesh_aborts (mkEnv [wObjNamed, wObjMesh]) () wLayer 1 none false
     1 1 rfl rfl [wObjNamed] [] wObjMesh rfl rfl (by decide)⟩

set_option maxRecDepth 40000 in
/-- C3: when the enumeration reaches a non-mesh object whose
boundary-to-face conversion fails for the supplied tolerance (all
earlier objects processed successfully), `import_grids` raises
`FaceConversionError` — the re-raised `AssertionError` — whose message
contains that object's identifier and the hint to use a smaller grid
size, and the whole call aborts with no partial results. -/
theorem import_grids_conversion_failure_aborts (env : Env M F P) (file : M)
    (layer : Layer) (tolerance : Rat) (grid_controls : Option (List Rat))
    (child_layer : Bool) (g0 g1 : Rat)
    (h0 : (effectiveGridControls grid_controls).get? 0 = some g0)
    (h1 : (effectiveGridControls grid_controls).get? 1 = some g1)
    (pre rest : List RhinoObject) (bobj : RhinoObject)
    (henum : gridObjects env file layer child_layer = pre ++ bobj :: rest)
    (hnm : bobj.geoKind ≠ .mesh)
    (hfail : env.to_face3d bobj tolerance = none)
    (hpre : ∀ o ∈ pre, objOk env tolerance o) :
    import_grids env file layer tolerance grid_controls child_layer =
      .error (.assertionError (conversionFailureMsg bobj.Attributes.Id)) ∧
    (∃ s t, conversionFailureMsg bobj.Attributes.Id =
      s ++ (bobj.Attributes.Id ++ t)) ∧
    (∃ u v, conversionFailureMsg bobj.Attributes.Id =
      u ++ ("smaller grid size" ++ v)) := by
  refine ⟨?_, ⟨"Please check object with ID: ", conversionHint, rfl⟩, ?_⟩
  · simp only [import_grids, henum]
    rw [processObjects_append env tolerance _ g0 g1 h0 h1 pre hpre]
    simp [processObjects, if_neg hnm, hfail]
  · refine ⟨"Please check object with ID: " ++ (bobj.Attributes.Id ++
      ". Either the object has faces too small for the grid size, or the object is not supported for grids. You should try again with a "),
      " in the config file.", ?_⟩
    have hh : conversionHint =
        ". Either the object has faces too small for the grid size, or the object is not supported for grids. You should try again with a " ++
        ("smaller grid size" ++ " in the config file.") := by decide
    rw [conversionFailureMsg, hh]
    simp [String.append_assoc]

/-- Witness for C3: a failing object after one good object. -/
theorem import_grids_conversion_failure_aborts_witness :
    wObjBad.geoKind ≠ .mesh ∧
    (mkEnv [wObjNamed, wObjBad]).to_face3d wObjBad 1 = none ∧
    gridObjects (mkEnv [wObjNamed, wObjBad]) () wLayer false =
      [wObjNamed] ++ wObjBad :: [] ∧
    (import_grids (mkEnv [wObjNamed, wObjBad]) () wLayer 1 none false =
      .error (.assertionError (conversionFailureMsg "idBad")) ∧
     (∃ s t, conversionFailureMsg "idBad" = s ++ ("idBad" ++ t)) ∧
     (∃ u v, conversionFailureMsg "idBad" = u ++ ("smaller grid size" ++ v))) :=
  ⟨by decide, rfl, rfl,
   import_grids_conversion_failure_aborts (mkEnv [wObjNamed, wObjBad]) () wLayer
     1 none false 1 1 rfl rfl [wObjNamed] [] wObjBad rfl (by decide) rfl
     (by decide)⟩

/-- C1: for every model, layer and positive tolerance such that every
enumerated object on the layer is non-mesh and converts successfully
(and the grid controls are absent or a triple), `import_grids` returns
exactly one merged sensor grid, identified by the layer's name, whose
total point count equals the sum of the point counts recorded in the
summary rows returned alongside. -/
theorem import_grids_single_grid_count_sum (env : Env M F P) (file : M)
    (layer : Layer) (tolerance sx sy oz : Rat)
    (grid_controls : Option (List Rat)) (child_layer : Bool)
    (_htol : 0 < tolerance)
    (hgc : grid_controls = none ∨ grid_controls = some [sx, sy, oz])
    (hok : ∀ o ∈ gridObjects env file layer child_layer, objOk env tolerance o) :
    ∃ (g : SensorGrid P) (data : List (String × Nat)),
      import_grids env file layer tolerance grid_controls child_layer =
        .ok ([g], data) ∧
      g.identifier = layer.Name ∧
      g.positions.length = (data.map Prod.snd).sum := by
  obtain ⟨g0, g1, h0, h1⟩ :
      ∃ g0 g1, (effectiveGridControls grid_controls).get? 0 = some g0 ∧
        (effectiveGridControls grid_controls).get? 1 = some g1 := by
    rcases hgc with h | h <;> subst h
    · exact ⟨1, 1, rfl, rfl⟩
    · exact ⟨sx, sy, rfl, rfl⟩
  refine ⟨_, _, import_grids_ok env file layer tolerance grid_controls
    child_layer g0 g1 h0 h1 hok, rfl, ?_⟩
  simp [objRow, List.length_flatten, List.map_map, Function.comp_def]

/-- Witness for C1 on a two-object layer. -/
theorem import_grids_single_grid_count_sum_witness :
    0 < (1 : Rat) ∧
    (∀ o ∈ gridObjects (mkEnv [wObjNamed, wObjUnnamed]) () wLayer false,
      objOk (mkEnv [wObjNamed, wObjUnnamed]) 1 o) ∧
    ∃ (g : SensorGrid Nat) (data : List (String × Nat)),
      import_grids (mkEnv [wObjNamed, wObjUnnamed]) () wLayer 1 none false =
        .ok ([g], data) ∧
      g.identifier = wLayer.Name ∧
      g.positions.length = (data.map Prod.snd).sum :=
  ⟨by decide, by decide,
   import_grids_single_grid_count_sum (mkEnv [wObjNamed, wObjUnnamed]) () wLayer
     1 1 1 0 none false (by decide) (Or.inl rfl) (by decide)⟩

/-- C6: for every successful run (all enumerated objects non-mesh and
converting, grid controls indexable), the merged grid's point sequence
equals the concatenation of the per-object point lists in the order the
objects are enumerated from the layer, each object's points contiguous
and in their seeded order. -/
theorem import_grids_positions_concat (env : Env M F P) (file : M)
    (layer : Layer) (tolerance : Rat) (grid_controls : Option (List Rat))
    (child_layer : Bool) (g0 g1 : Rat)
    (h0 : (effectiveGridControls grid_controls).get? 0 = some g0)
    (h1 : (effectiveGridControls grid_controls).get? 1 = some g1)
    (hok : ∀ o ∈ gridObjects env file layer child_layer, objOk env tolerance o) :
    ∃ (g : SensorGrid P) (data : List (String × Nat)),
      import_grids env file layer tolerance grid_controls child_layer =
        .ok ([g], data) ∧
      g.positions = ((gridObjects env file layer child_layer).map
        (fun o => (objSensors env tolerance g0 g1 o).map Sensor.pos)).flatten :=
  ⟨_, _, import_grids_ok env file layer tolerance grid_controls child_layer
    g0 g1 h0 h1 hok, rfl⟩

/-- Witness for C6 on a two-object layer. -/
theorem import_grids_positions_concat_witness :
    (effectiveGridControls none).get? 0 = some 1 ∧
    (effectiveGridControls none).get? 1 = some 1 ∧
    (∀ o ∈ gridObjects (mkEnv [wObjNamed, wObjUnnamed]) () wLayer false,
      objOk (mkEnv [wObjNamed, wObjUnnamed]) 1 o) ∧
    ∃ (g : SensorGrid Nat) (data : List (String × Nat)),
      import_grids (mkEnv [wObjNamed, wObjUnnamed]) () wLayer 1 none false =
        .ok ([g], data) ∧
      g.positions = ((gridObjects (mkEnv [wObjNamed, wObjUnnamed]) () wLayer
        false).map (fun o => (objSensors (mkEnv [wObjNamed, wObjUnnamed]) 1 1 1
          o).map Sensor.pos)).flatten :=
  ⟨rfl, rfl, by decide,
   import_grids_positions_concat (mkEnv [wObjNamed, wObjUnnamed]) () wLayer 1
     none false 1 1 rfl rfl (by decide)⟩

/-- C5: for every successful run with grid controls
`(spacing_x, spacing_y, offset_z)`, the grid-seeding service
`from_face3d` is invoked, for each object, with the positional arguments
`spacing_x, spacing_x, spacing_y` in that order: the x-spacing fills
both grid-size slots and the y-spacing the third slot (the offset is
never passed). -/
theorem import_grids_seeding_arg_order (env : Env M F P) (file : M)
    (layer : Layer) (tolerance sx sy oz : Rat) (child_layer : Bool)
    (facesFn : RhinoObject → List F)
    (hmesh : ∀ o ∈ gridObjects env file layer child_layer, o.geoKind ≠ .mesh)
    (hconv : ∀ o ∈ gridObjects env file layer child_layer,
      env.to_face3d o tolerance = some (facesFn o)) :
    import_grids env file layer tolerance (some [sx, sy, oz]) child_layer =
      .ok ([{ identifier := layer.Name,
              positions := ((gridObjects env file layer child_layer).map
                (fun o => (env.from_face3d (env.clean_string (workingName env o))
                  (facesFn o) sx sx sy).map Sensor.pos)).flatten,
              directions := ((gridObjects env file layer child_layer).map
                (fun o => (env.from_face3d (env.clean_string (workingName env o))
                  (facesFn o) sx sx sy).map Sensor.dir)).flatten }],
            (gridObjects env file layer child_layer).map
              (fun o => (workingName env o,
                (env.from_face3d (env.clean_string (workingName env o))
                  (facesFn o) sx sx sy).length))) := by
  have hsens : ∀ o ∈ gridObjects env file layer child_layer,
      objSensors env tolerance sx sy o =
        env.from_face3d (env.clean_string (workingName env o)) (facesFn o)
          sx sx sy := by
    intro o ho
    simp [objSensors, hconv o ho]
  have h := import_grids_ok env file layer tolerance (some [sx, sy, oz])
    child_layer sx sy rfl rfl
    (fun o ho => ⟨hmesh o ho, by rw [hconv o ho]; rfl⟩)
  rw [h]
  congr 1
  refine congrArg₂ Prod.mk (congrArg (fun l => [l]) ?_) ?_
  · congr 1
    · exact congrArg List.flatten (List.map_congr_left
        (fun o ho => by rw [hsens o ho]))
    · exact congrArg List.flatten (List.map_congr_left
        (fun o ho => by rw [hsens o ho]))
  · exact List.map_congr_left (fun o ho => by simp [objRow, hsens o ho])

/-- Witness for C5 on a one-object layer with distinct control values,
showing the x-spacing `5` passed twice and the y-spacing `7` third. -/
theorem import_grids_seeding_arg_order_witness :
    (∀ o ∈ gridObjects (mkEnv [wObjNamed]) () wLayer false,
      o.geoKind ≠ GeoKind.mesh) ∧
    (∀ o ∈ gridObjects (mkEnv [wObjNamed]) () wLayer false,
      (mkEnv [wObjNamed]).to_face3d o 1 = some [7]) ∧
    import_grids (mkEnv [wObjNamed]) () wLayer 1 (some [5, 7, 9]) false =
      .ok ([{ identifier := "grid", positions := [0, 2],
              directions := [1, 3] }], [("alpha", 2)]) :=
  ⟨by decide, by decide,
   import_grids_seeding_arg_order (mkEnv [wObjNamed]) () wLayer 1 5 7 9 false
     (fun _ => [7]) (by decide) (by decide)⟩

/-- C4, counterexample to the claim as stated: the recorded summary row
uses the raw working name, not its sanitized form.  Here the sanitizer
`clean_string` maps `alpha` to `alpha_c`, yet the returned summary row
is `(alpha, 2)`. -/
theorem import_grids_summary_sanitization_cex :
    import_grids (mkEnv [wObjNamed]) () wLayer 1 none false =
      .ok ([{ identifier := "grid", positions := [0, 2],
              directions := [1, 3] }], [("alpha", 2)]) ∧
    (mkEnv [wObjNamed]).clean_string
      (workingName (mkEnv [wObjNamed]) wObjNamed) = "alpha_c" ∧
    ("alpha", 2) ≠ (("alpha_c" : String), (2 : Nat)) :=
  ⟨rfl, rfl, by decide⟩

/-- C4 as amended: for every successfully processed object, the working
name is its stored name when non-empty, else the generated identifier
(`workingName`); the *sanitized* working name is what is passed to the
seeding service as the grid identifier (see `objSensors`), while the
summary row recorded for the object is the pair
`(working_name, point_count)` with the unsanitized working name. -/
theorem import_grids_summary_rows_working_name (env : Env M F P) (file : M)
    (layer : Layer) (tolerance : Rat) (grid_controls : Option (List Rat))
    (child_layer : Bool) (g0 g1 : Rat)
    (h0 : (effectiveGridControls grid_controls).get? 0 = some g0)
    (h1 : (effectiveGridControls grid_controls).get? 1 = some g1)
    (hok : ∀ o ∈ gridObjects env file layer child_layer, objOk env tolerance o) :
    ∃ g : SensorGrid P,
      import_grids env file layer tolerance grid_controls child_layer =
        .ok ([g], (gridObjects env file layer child_layer).map
          (fun o => (workingName env o,
            (objSensors env tolerance g0 g1 o).length))) :=
  ⟨_, import_grids_ok env file layer tolerance grid_controls child_layer
    g0 g1 h0 h1 hok⟩

/-- Witness for the amended C4 on a layer with a named and an unnamed
object: the rows use `alpha` (stored name, unsanitized) and `Grid_gen`
(generated by `clean_and_id_string`). -/
theorem import_grids_summary_rows_working_name_witness :
    (effectiveGridControls none).get? 0 = some 1 ∧
    (effectiveGridControls none).get? 1 = some 1 ∧
    (∀ o ∈ gridObjects (mkEnv [wObjNamed, wObjUnnamed]) () wLayer false,
      objOk (mkEnv [wObjNamed, wObjUnnamed]) 1 o) ∧
    ∃ g : SensorGrid Nat,
      import_grids (mkEnv [wObjNamed, wObjUnnamed]) () wLayer 1 none false =
        .ok ([g], [("alpha", 2), ("Grid_gen", 2)]) :=
  ⟨rfl, rfl, by decide,
   import_grids_summary_rows_working_name (mkEnv [wObjNamed, wObjUnnamed]) ()
     wLayer 1 none false 1 1 rfl rfl (by decide)⟩

/-- Joining to an empty first component returns the second component,
as `os.path.join` does. -/
theorem joinPath_empty_left (b : String) : joinPath "" b = b := by
  unfold joinPath
  split
  · rfl
  · exact String.empty_append b

/-- C7: for every name and ordered row sequence, the exporter writes to
`target_folder/name.csv` when a target folder is given (and exists) and
to `./name.csv` otherwise, truncating any existing file (the successful
result is the full new content), with exactly one comma-delimited
record per input row, in input order, and no header. -/
theorem write_csv_path_and_rows (pathExists : String → Bool) (name : String)
    (rows : List (List Field)) (folder : String)
    (hex : pathExists folder = true) :
    write_csv pathExists
        { name := name, data := rows, target_folder := some folder } =
      .ok (joinPath folder (name ++ ".csv"), rows.map csvRecord) ∧
    write_csv pathExists { name := name, data := rows, target_folder := none } =
      .ok (name ++ ".csv", rows.map csvRecord) := by
  constructor
  · by_cases hf : folder = ""
    · subst hf
      simp [write_csv, targetFolderTruthy, joinPath_empty_left]
    · have ht : targetFolderTruthy (some folder) = true := by
        simp [targetFolderTruthy, hf]
      simp [write_csv, ht, hex]
  · rfl

/-- Witness for C7: the spec's example, on a filesystem where `out`
exists: two records `A,3` and `B,5`, in order, no header. -/
theorem write_csv_path_and_rows_witness :
    outExists "out" = true ∧
    write_csv outExists
        { name := "report", data := wRows, target_folder := some "out" } =
      .ok ("out/report.csv", ["A,3", "B,5"]) ∧
    write_csv outExists
        { name := "report", data := wRows, target_folder := none } =
      .ok ("report.csv", ["A,3", "B,5"]) :=
  ⟨rfl, (write_csv_path_and_rows outExists "report" wRows "out" rfl).1,
    (write_csv_path_and_rows outExists "report" wRows "out" rfl).2⟩

/-- C8, counterexample to the claim as stated: with the falsy target
folder `""` — a path that does not exist on any filesystem — the
exporter does not raise: it skips validation and writes `./name.csv`. -/
theorem write_csv_empty_folder_cex :
    noPath "" = false ∧
    write_csv noPath
        { name := "report", data := [[Field.str "A", Field.int 3]],
          target_folder := some "" } =
      .ok ("report.csv", ["A,3"]) :=
  ⟨rfl, rfl⟩

/-- C8 as amended: for every call with a non-empty (truthy) target
folder that does not exist as a path, the exporter raises
`InvalidTargetFolder` (the `ValueError` with the source's message) and
opens no file: the error is returned before any path is produced. -/
theorem write_csv_missing_folder_error (pathExists : String → Bool)
    (name : String) (rows : List (List Field)) (folder : String)
    (hne : folder ≠ "") (hex : pathExists folder = false) :
    write_csv pathExists
        { name := name, data := rows, target_folder := some folder } =
      .error (.valueError invalidFolderMsg) := by
  have ht : targetFolderTruthy (some folder) = true := by
    simp [targetFolderTruthy, hne]
  simp [write_csv, ht, hex]

/-- Witness for the amended C8: the folder `missing` on the empty
filesystem. -/
theorem write_csv_missing_folder_error_witness :
    ("missing" : String) ≠ "" ∧
    noPath "missing" = false ∧
    write_csv noPath
        { name := "report", data := wRows, target_folder := some "missing" } =
      .error (.valueError invalidFolderMsg) :=
  ⟨by decide, rfl,
   write_csv_missing_folder_error noPath "report" wRows "missing"
     (by decide) rfl⟩

end HoneybeeGrid
